import Mathlib

/-!
Shallow embedding of `chartink_webhook_server.py`: a Flask webhook server that
extracts stock symbols from Chartink alert payloads, writes them as
`Iteration_N` sheets of an Excel workbook, and best-effort uploads the workbook
to Google Drive.  Python string operations (`strip`, `upper`, `replace`,
`split`, `int`, `float`, `startswith`) are modelled as executable functions on
`List Char`; payload values are modelled by the JSON-like type `PyValue`;
the workbook is a list of named sheets; the ambient effects (current time,
save success, Drive availability and call outcome) are explicit parameters.
-/

namespace Chartink

/-- Whitespace characters removed by Python `str.strip()` (ASCII subset). -/
def isPySpace (c : Char) : Bool :=
  c == ' ' || c == '\t' || c == '\n' || c == '\r' || c == '\x0b' || c == '\x0c'

/-- Drop leading whitespace, as the left half of Python `str.strip()`. -/
def stripL (cs : List Char) : List Char := cs.dropWhile isPySpace

/-- Drop trailing whitespace, as the right half of Python `str.strip()`. -/
def stripR (cs : List Char) : List Char := (cs.reverse.dropWhile isPySpace).reverse

/-- Python `str.strip()` on character lists. -/
def stripLR (cs : List Char) : List Char := stripR (stripL cs)

/-- Python `str.strip()`. -/
def pyStrip (s : String) : String := String.mk (stripLR s.toList)

/-- Python `str.upper()` (ASCII model). -/
def pyUpper (s : String) : String := String.mk (s.toList.map Char.toUpper)

/-- Python `str.split(sep)` for a one-character separator, keeping empty
pieces, on character lists. -/
def splitOnChar (sep : Char) : List Char → List (List Char)
  | [] => [[]]
  | c :: cs =>
    if c = sep then [] :: splitOnChar sep cs
    else
      match splitOnChar sep cs with
      | [] => [[c]]
      | g :: gs => (c :: g) :: gs

/-- Python `str.split(sep)` for a one-character separator. -/
def pySplit (sep : Char) (s : String) : List String :=
  (splitOnChar sep s.toList).map String.mk

/-- Python `str.replace(pat, repl)`: replace all non-overlapping occurrences
left to right.  Structural recursion on a fuel argument (each step consumes at
least one character, so `cs.length` fuel always suffices); the empty-pattern
branch is never reached by this program (both patterns used are nonempty). -/
def replaceAllFuel (pat repl : List Char) : Nat → List Char → List Char
  | _, [] => []
  | 0, cs => cs
  | fuel + 1, c :: cs =>
    match pat with
    | [] => c :: cs
    | p :: ps =>
      if (p :: ps).isPrefixOf (c :: cs) then
        repl ++ replaceAllFuel pat repl fuel (cs.drop ps.length)
      else
        c :: replaceAllFuel pat repl fuel cs

/-- Python `str.replace(pat, repl)` on character lists. -/
def replaceAll (pat repl cs : List Char) : List Char :=
  replaceAllFuel pat repl cs.length cs

/-- Python `str.replace(pat, repl)`. -/
def pyReplace (s pat repl : String) : String :=
  String.mk (replaceAll pat.toList repl.toList s.toList)

/-- Python `str.startswith(pre)`. -/
def pyStartsWith (pre s : String) : Bool := pre.toList.isPrefixOf s.toList

/-- Decimal value of a digit list, most significant first. -/
def digitsVal (cs : List Char) : Nat :=
  cs.foldl (fun a c => a * 10 + (c.toNat - 48)) 0

/-- Python `int(·)` on a stripped character list: optional sign followed by at
least one ASCII digit; `none` models a raised `ValueError`. -/
def pyIntCore : List Char → Option Int
  | [] => none
  | c :: cs =>
    if c = '+' then
      if cs ≠ [] ∧ cs.all Char.isDigit then some (digitsVal cs : Int) else none
    else if c = '-' then
      if cs ≠ [] ∧ cs.all Char.isDigit then some (-(digitsVal cs : Int)) else none
    else
      if (c :: cs).all Char.isDigit then some (digitsVal (c :: cs) : Int) else none

/-- Python `int(s)` (which strips surrounding whitespace itself). -/
def pyInt (s : String) : Option Int := pyIntCore (stripLR s.toList)

/-- Exact decimal number `mant / 10 ^ exp`, the model of a Python float
produced by `float(·)` on a plain decimal literal (the only floats this
program produces; such values are exactly representable). -/
structure Dec where
  mant : Int
  exp : Nat
deriving DecidableEq, Repr

/-- Rational value of a `Dec`. -/
def Dec.toRat (d : Dec) : ℚ := (d.mant : ℚ) / 10 ^ d.exp

/-- Python `float(·)` on a stripped character list, for plain decimal
literals: optional sign, digits, optional dot and fraction digits, at least
one digit overall; `none` models a raised `ValueError`. -/
def pyFloatCore : List Char → Option Dec
  | [] => none
  | c :: cs =>
    let sb : Int × List Char :=
      if c = '+' then (1, cs) else if c = '-' then (-1, cs) else (1, c :: cs)
    match splitOnChar '.' sb.2 with
    | [ip] =>
      if ip ≠ [] ∧ ip.all Char.isDigit then
        some ⟨sb.1 * (digitsVal ip : Int), 0⟩
      else none
    | [ip, fp] =>
      if (ip ≠ [] ∨ fp ≠ []) ∧ ip.all Char.isDigit ∧ fp.all Char.isDigit then
        some ⟨sb.1 * ((digitsVal ip : Int) * 10 ^ fp.length + (digitsVal fp : Int)),
              fp.length⟩
      else none
    | _ => none

/-- Python `float(s)` (which strips surrounding whitespace itself). -/
def pyFloat (s : String) : Option Dec := pyFloatCore (stripLR s.toList)

/-- JSON-like values of an alert payload, as Python sees them after
`request.get_json()` / `request.form.to_dict()`. -/
inductive PyValue where
  | str (s : String)
  | int (n : Int)
  | float (d : Dec)
  | bool (b : Bool)
  | null
  | list (xs : List PyValue)
  | dict (entries : List (String × PyValue))

/-- An alert payload: a Python dict with string keys (keys unique, insertion
order preserved). -/
abbrev Payload := List (String × PyValue)

/-- Python `key in d` / `d[key]` combined: the value at a key, if present. -/
def pyLookup (alert : Payload) (k : String) : Option PyValue :=
  (alert.find? fun e => e.1 == k).map Prod.snd

/-- Python `d.get(key, default)`. -/
def pyGet (alert : Payload) (k : String) (d : PyValue) : PyValue :=
  (pyLookup alert k).getD d

/-- Symbol cleaning from `extract_stocks_from_alert` (line 193):
`stock.strip().upper().replace("NSE:", "").replace(".NS", "")`. -/
def cleanStock (s : String) : String :=
  pyReplace (pyReplace (pyUpper (pyStrip s)) "NSE:" "") ".NS" ""

/-- Loop body of the cleaning loop (lines 191-195): non-strings are skipped
by the `isinstance(stock, str)` guard; a cleaned entry is kept when it is
nonempty and at most 20 characters long. -/
def cleanFilterItem (v : PyValue) : Option String :=
  match v with
  | .str s =>
    let c := cleanStock s
    if c ≠ "" ∧ c.length ≤ 20 then some c else none
  | _ => none

/-- Python `for` iteration over a value: a string yields its characters, a
list its elements, a dict its keys (as strings); any other value raises
`TypeError`, modelled by `none`. -/
def iterMembers : PyValue → Option (List PyValue)
  | .str s => some (s.toList.map fun c => .str (String.mk [c]))
  | .list xs => some xs
  | .dict es => some (es.map fun e => PyValue.str e.1)
  | _ => none

/-- Model of `ChartinkWebhookHandler.extract_stocks_from_alert` (lines 175-202): a
string `stocks` field is comma-split and each piece stripped; any other
value is iterated (a `TypeError` is caught and yields `[]`); each string
item is cleaned and kept when nonempty and at most 20 characters. -/
def extract_stocks_from_alert (alert : Payload) : List String :=
  match pyLookup alert "stocks" with
  | none => []
  | some (.str s) =>
    ((pySplit ',' s).map pyStrip).filterMap fun t => cleanFilterItem (.str t)
  | some v =>
    match iterMembers v with
    | none => []
    | some items => items.filterMap cleanFilterItem

/-- One sheet of the workbook: its title and its rows of cells. -/
structure Sheet where
  name : String
  rows : List (List PyValue)

/-- The workbook file on disk at the start of an operation: absent, present
with the given sheets, or unreadable (`load_workbook` raises). -/
inductive FileState where
  | missing
  | corrupt
  | present (wb : List Sheet)

/-- Handler state: the workbook file plus the in-memory
`self.current_iteration` counter. -/
structure WState where
  file : FileState
  currentIteration : Int

/-- Number extracted from a sheet name by `int(sheet.split('_')[1])`
(line 142): `none` models the caught `IndexError` or `ValueError`. -/
def sheetNumber (name : String) : Option Int :=
  match (pySplit '_' name)[1]? with
  | none => none
  | some tok => pyInt tok

/-- Python `max` over a list: `none` on the empty list. -/
def listMax : List Int → Option Int
  | [] => none
  | n :: ns => some (ns.foldl max n)

/-- Model of `ChartinkWebhookHandler.get_next_iteration_number` (lines 127-148). -/
def get_next_iteration_number : FileState → Int
  | .missing => 1
  | .corrupt => 1
  | .present wb =>
    let iterationSheets :=
      (wb.map Sheet.name).filter fun s => pyStartsWith "Iteration_" s
    if iterationSheets.isEmpty then 1
    else
      match listMax (iterationSheets.filterMap sheetNumber) with
      | none => 1
      | some m => m + 1

/-- Ambient per-request effects: the `datetime.now()` renderings used in the
rows and whether `workbook.save` succeeds (false models a raised I/O error). -/
structure Env where
  dateStr : String
  hmStr : String
  hmsStr : String
  saveOk : Bool

/-- Google Drive configuration and the outcome of the external upload call:
`enabled` is the call-site guard `use_google_drive and drive_handler and
drive_handler.service` (line 259), `serviceUp` the `if not self.service`
guard inside `upload_file`, and `callResult` the outcome of the remote API
calls (`Except.error` models a raised exception). -/
structure DriveEnv where
  enabled : Bool
  serviceUp : Bool
  callResult : Except String String

/-- Model of `GoogleDriveHandler.upload_file` (lines 72-118): returns the file id on
success and `None` both when the service is unavailable and when any
exception is raised (the `except` clause catches it and logs). -/
def upload_file (d : DriveEnv) : Option String :=
  if d.serviceUp then
    match d.callResult with
    | .ok fid => some fid
    | .error _ => none
  else none

/-- Result dict returned by `process_chartink_alert` / `add_stocks_to_excel`. -/
inductive PResult where
  | success (message : String) (stocks : List String) (iteration : Int)
  | error (message : String)

/-- Header row of the `Master_List` sheet (line 241). -/
def masterHeaders : List PyValue :=
  [.str "Stock_Symbol", .str "First_Appearance_Date", .str "First_Iteration",
   .str "Total_Appearances", .str "Last_Updated"]

/-- Workbook created when the Excel file does not exist (lines 234-246). -/
def baselineWorkbook : List Sheet :=
  [⟨"Master_List", [masterHeaders]⟩,
   ⟨"TradingView_Export", [[.str "TradingView_Symbols"]]⟩]

/-- Column names of the per-iteration DataFrame, in insertion order
(lines 218-229). -/
def dfColumns : List PyValue :=
  [.str "Sr_No", .str "Stock_Symbol", .str "Trigger_Price", .str "Scan_Name",
   .str "Alert_Name", .str "Triggered_At", .str "Date_Added", .str "Iteration",
   .str "Alert_Time", .str "Scan_URL"]

/-- Trigger-price parsing (lines 207-212): a string field is comma-split and
each piece parsed with `float(p.strip())`; if any piece fails the whole list
collapses to `[]`; a missing or non-string field yields `[]`. -/
def parse_trigger_prices (alert : Payload) : List Dec :=
  match pyLookup alert "trigger_prices" with
  | some (.str s) => (((pySplit ',' s).map pyStrip).mapM pyFloat).getD []
  | _ => []

/-- One data row (lines 215-229), for the 0-based position `i`
(Python enumerates from 1, so `Sr_No` is `i + 1` and the trigger price uses
index `i`). -/
def stockRow (env : Env) (alert : Payload) (iter : Int) (prices : List Dec)
    (i : Nat) (stock : String) : List PyValue :=
  [.int ((i : Int) + 1),
   .str stock,
   (match prices[i]? with | some p => .float p | none => .int 0),
   pyGet alert "scan_name" (.str "Unknown"),
   pyGet alert "alert_name" (.str "Chartink Alert"),
   pyGet alert "triggered_at" (.str env.hmStr),
   .str env.dateStr,
   .int iter,
   .str env.hmsStr,
   pyGet alert "scan_url" (.str "")]

/-- All data rows of the new iteration sheet. -/
def buildRows (env : Env) (alert : Payload) (iter : Int)
    (stocks : List String) : List (List PyValue) :=
  stocks.enum.map fun p => stockRow env alert iter (parse_trigger_prices alert) p.1 p.2

/-- Sheet replacement and save (lines 249-269): remove any sheet with the
iteration name (openpyxl sheet names are unique, so removal by name is
modelled as filtering that name out), append the fresh sheet at the end,
save, best-effort upload (result discarded), then increment the counter. -/
def writeAndFinish (env : Env) (drive : DriveEnv) (st : WState)
    (stocks : List String) (rows : List (List PyValue)) (wb : List Sheet) :
    WState × PResult :=
  let sheetName := "Iteration_" ++ toString st.currentIteration
  let wb2 := (wb.filter fun sh => sh.name != sheetName) ++
             [⟨sheetName, dfColumns :: rows⟩]
  if env.saveOk then
    let _fileId := if drive.enabled then upload_file drive else none
    ({ file := .present wb2, currentIteration := st.currentIteration + 1 },
     .success ("Added " ++ toString stocks.length ++ " stocks to iteration " ++
               toString st.currentIteration)
              stocks st.currentIteration)
  else
    (st, .error "failed to save workbook")

/-- Model of `ChartinkWebhookHandler.add_stocks_to_excel` (lines 204-272): any raised
exception (unreadable workbook, failed save) is caught and reported as an
error result with the state unchanged. -/
def add_stocks_to_excel (env : Env) (drive : DriveEnv) (st : WState)
    (stocks : List String) (alert : Payload) : WState × PResult :=
  let rows := buildRows env alert st.currentIteration stocks
  match st.file with
  | .corrupt => (st, .error "failed to load workbook")
  | .missing =>
    if env.saveOk then writeAndFinish env drive st stocks rows baselineWorkbook
    else (st, .error "failed to save workbook")
  | .present wb => writeAndFinish env drive st stocks rows wb

/-- Model of `ChartinkWebhookHandler.process_chartink_alert` (lines 150-173). -/
def process_chartink_alert (env : Env) (drive : DriveEnv) (st : WState)
    (alert : Payload) : WState × PResult :=
  let stocks := extract_stocks_from_alert alert
  if stocks.isEmpty then (st, .error "No stocks found in alert")
  else add_stocks_to_excel env drive st stocks alert

/-- HTTP status chosen by the endpoint (line 292). -/
def resultStatusCode : PResult → Nat
  | .success _ _ _ => 200
  | .error _ => 400

/-- Response body `jsonify(result)`: the result dict in insertion order. -/
def resultJson : PResult → List (String × PyValue)
  | .success msg stocks it =>
    [("status", .str "success"), ("message", .str msg),
     ("stocks", .list (stocks.map PyValue.str)), ("iteration", .int it)]
  | .error msg => [("status", .str "error"), ("message", .str msg)]

/-- The `/webhook` endpoint `chartink_webhook` (lines 277-298): `body = none`
models a request whose parsing produced a falsy `alert_data` (no JSON object
and no form fields); it is answered with HTTP 400 and a fixed error body
without touching the handler state. -/
def chartink_webhook (env : Env) (drive : DriveEnv) (st : WState)
    (body : Option Payload) : WState × Nat × List (String × PyValue) :=
  match body with
  | none =>
    (st, 400, [("status", PyValue.str "error"),
               ("message", PyValue.str "No data received")])
  | some alert =>
    let r := process_chartink_alert env drive st alert
    (r.1, resultStatusCode r.2, resultJson r.2)

/-- Spec-side helper: the comma-separated string a client would submit for a
given sequence of symbols (used only to state the string/list equivalence
claim). -/
def joinSep (sep : Char) : List (List Char) → List Char
  | [] => []
  | [p] => p
  | p :: q :: rest => p ++ sep :: joinSep sep (q :: rest)

/-- Spec-side helper: join symbol strings with commas. -/
def commaJoin (l : List String) : String :=
  String.mk (joinSep ',' (l.map String.toList))

/-- Fixed sample request environment used by the concrete witnesses. -/
def envW : Env := ⟨"2026-10-12", "10:00 AM", "10:00:00", true⟩

/-- Sample request environment whose workbook save fails. -/
def envBad : Env := ⟨"2026-10-12", "10:00 AM", "10:00:00", false⟩

/-- Sample Drive environment: enabled, service up, call succeeds. -/
def driveOk : DriveEnv := ⟨true, true, .ok "fid-1"⟩

/-- Sample Drive environment: enabled, service up, call raises. -/
def driveErr : DriveEnv := ⟨true, true, .error "HttpError 503"⟩

/-- Sample alert from the spec example. -/
def alertW : Payload :=
  [("stocks", .str "NSE:TCS, INFY.NS"), ("trigger_prices", .str "3500,1500")]

/-- Sample alert whose trigger-price list is shorter than the symbol list. -/
def alertShort : Payload :=
  [("stocks", .str "TCS,INFY"), ("trigger_prices", .str "3500")]

/-- Sample pre-existing workbook with an `Iteration_1` sheet to be replaced. -/
def wbW : List Sheet :=
  [⟨"Master_List", [masterHeaders]⟩,
   ⟨"Iteration_1", [[.str "OLD"]]⟩,
   ⟨"TradingView_Export", [[.str "TradingView_Symbols"]]⟩]

end Chartink

namespace Chartink

/-- Python `max` over a nonempty list bounds its starting element. -/
lemma le_foldl_max : ∀ (ns : List Int) (a : Int), a ≤ ns.foldl max a
  | [], _ => le_refl _
  | n :: ns, a => le_trans (le_max_left a n) (le_foldl_max ns (max a n))

/-- C9: a POST to the webhook endpoint whose body yields neither a JSON object
nor form fields is answered with HTTP 400 and exactly the JSON body
with status "error" and message "No data received", and the handler state is
untouched (no normalization, workbook write, or upload happens). -/
theorem c9_empty_body_response :
    ∀ (env : Env) (drive : DriveEnv) (st : WState),
      chartink_webhook env drive st none =
        (st, 400, [("status", PyValue.str "error"),
                   ("message", PyValue.str "No data received")]) := by
  intro env drive st
  rfl

/-- C1: the startup iteration number is 1 when the workbook file is missing;
1 when no sheet name starts with "Iteration_"; and one plus the maximum of
the numbers scanned out of the "Iteration_N" sheet names otherwise; in
particular with sheets Iteration_1..Iteration_5 present it is 6. -/
theorem c1_initial_iteration_number :
    get_next_iteration_number .missing = 1
    ∧ (∀ wb : List Sheet,
        ((wb.map Sheet.name).filter fun s => pyStartsWith "Iteration_" s) = [] →
        get_next_iteration_number (.present wb) = 1)
    ∧ (∀ (wb : List Sheet) (m : Int),
        listMax (((wb.map Sheet.name).filter fun s => pyStartsWith "Iteration_" s).filterMap
          sheetNumber) = some m →
        get_next_iteration_number (.present wb) = m + 1)
    ∧ get_next_iteration_number (.present [⟨"Master_List", []⟩, ⟨"TradingView_Export", []⟩,
        ⟨"Iteration_1", []⟩, ⟨"Iteration_2", []⟩, ⟨"Iteration_3", []⟩, ⟨"Iteration_4", []⟩,
        ⟨"Iteration_5", []⟩]) = 6 := by
  refine ⟨rfl, ?_, ?_, by decide⟩
  · intro wb h
    simp [get_next_iteration_number, h]
  · intro wb m h
    have hne : ((wb.map Sheet.name).filter fun s => pyStartsWith "Iteration_" s) ≠ [] := by
      intro he
      rw [he] at h
      simp [listMax] at h
    simp only [get_next_iteration_number]
    rw [if_neg (by simpa using hne), h]

/-- C1 witness: concrete instances of the two conditional clauses. -/
theorem c1_initial_iteration_number_witness :
    get_next_iteration_number (.present [⟨"Master_List", []⟩]) = 1
    ∧ get_next_iteration_number (.present [⟨"Iteration_3", []⟩, ⟨"Iteration_9", []⟩]) = 10 :=
  ⟨c1_initial_iteration_number.2.1 _ (by decide),
   c1_initial_iteration_number.2.2.1 _ 9 (by decide)⟩

/-- C10 counterexample: the startup scan is not always at least 1 — a sheet
named "Iteration_-5" parses to -5 and the scan returns -4. -/
theorem c10_counterexample :
    get_next_iteration_number (.present [⟨"Iteration_-5", []⟩]) = -4
    ∧ ((-4 : Int) < 1) := by
  exact ⟨by decide, by decide⟩

/-- C10 (amended): the startup iteration scan is total; it is at least 1
whenever every number parsed from the "Iteration_" sheet names is
nonnegative (a negative sheet number such as "Iteration_-5" makes it drop
below 1); a sheet starting with "Iteration_" whose first token after the
underscore does not parse as an integer is silently ignored;
"Iteration_2_old" contributes its leading number 2; and a workbook that
cannot be opened yields 1. -/
theorem c10_amended_scan_totality :
    (∀ wb : List Sheet,
      (∀ n ∈ (((wb.map Sheet.name).filter fun s => pyStartsWith "Iteration_" s).filterMap
          sheetNumber), 0 ≤ n) →
      1 ≤ get_next_iteration_number (.present wb))
    ∧ (∀ (sh : Sheet) (wb : List Sheet),
        pyStartsWith "Iteration_" sh.name = true →
        sheetNumber sh.name = none →
        get_next_iteration_number (.present (sh :: wb)) =
          get_next_iteration_number (.present wb))
    ∧ get_next_iteration_number (.present [⟨"Iteration_2_old", []⟩]) = 3
    ∧ get_next_iteration_number .corrupt = 1 := by
  refine ⟨?_, ?_, by decide, rfl⟩
  · intro wb h
    simp only [get_next_iteration_number]
    by_cases he : ((wb.map Sheet.name).filter fun s => pyStartsWith "Iteration_" s) = []
    · rw [if_pos (by simpa using he)]
    · rw [if_neg (by simpa using he)]
      cases hn : (((wb.map Sheet.name).filter fun s =>
          pyStartsWith "Iteration_" s).filterMap sheetNumber) with
      | nil => simp [listMax]
      | cons n ns =>
        simp only [listMax]
        have hmem : n ∈ (((wb.map Sheet.name).filter fun s =>
            pyStartsWith "Iteration_" s).filterMap sheetNumber) := by
          rw [hn]; exact List.mem_cons_self n ns
        have h0 : 0 ≤ n := h n hmem
        have h1 : n ≤ ns.foldl max n := le_foldl_max ns n
        omega
  · intro sh wb hstart hnum
    cases hrest : ((wb.map Sheet.name).filter fun s => pyStartsWith "Iteration_" s) with
    | nil =>
      simp [get_next_iteration_number, List.filter_cons, hstart, hrest,
            List.filterMap_cons, hnum, listMax]
    | cons r rs =>
      simp [get_next_iteration_number, List.filter_cons, hstart, hrest,
            List.filterMap_cons, hnum]

/-- C10 witness: concrete instances of the two conditional clauses. -/
theorem c10_amended_scan_totality_witness :
    1 ≤ get_next_iteration_number (.present [⟨"Iteration_7", []⟩])
    ∧ get_next_iteration_number (.present [⟨"Iteration_abc", []⟩, ⟨"Iteration_4", []⟩]) =
        get_next_iteration_number (.present [⟨"Iteration_4", []⟩]) :=
  ⟨c10_amended_scan_totality.1 _ (by decide),
   c10_amended_scan_totality.2.1 ⟨"Iteration_abc", []⟩ _ (by decide) (by decide)⟩

end Chartink

namespace Chartink

/-- Rebuilding a string from its characters is the identity. -/
lemma mk_toList (s : String) : String.mk s.toList = s := rfl

/-- Definitional equality of `stripR` with Mathlib's `List.rdropWhile`. -/
lemma stripR_eq (cs : List Char) : stripR cs = List.rdropWhile isPySpace cs := rfl

/-- A list with no leading whitespace still has none after `stripR`. -/
lemma dropWhile_stripR {cs : List Char} (h : List.dropWhile isPySpace cs = cs) :
    List.dropWhile isPySpace (stripR cs) = stripR cs := by
  rw [stripR_eq]
  rw [List.dropWhile_eq_self_iff] at h ⊢
  intro hl
  have hpre : List.rdropWhile isPySpace cs <+: cs := List.rdropWhile_prefix _ _
  have hlen : 0 < cs.length := lt_of_lt_of_le hl hpre.length_le
  have hg := hpre.get_eq (n := 0) hl
  rw [hg]
  exact h hlen

/-- Python `strip` is idempotent. -/
lemma stripLR_idem (cs : List Char) : stripLR (stripLR cs) = stripLR cs := by
  unfold stripLR
  have h1 : List.dropWhile isPySpace (stripL cs) = stripL cs :=
    List.dropWhile_idempotent _ _
  have h2 : stripL (stripR (stripL cs)) = stripR (stripL cs) := dropWhile_stripR h1
  rw [h2, stripR_eq, stripR_eq]
  exact List.rdropWhile_idempotent _ _

/-- Python `strip` is idempotent (string form). -/
lemma pyStrip_idem (s : String) : pyStrip (pyStrip s) = pyStrip s := by
  simp only [pyStrip]
  rw [show (String.mk (stripLR s.toList)).toList = stripLR s.toList from rfl, stripLR_idem]

/-- Cleaning begins with a `strip`, so pre-stripping does not change it. -/
lemma cleanStock_pyStrip (s : String) : cleanStock (pyStrip s) = cleanStock s := by
  simp only [cleanStock]
  rw [pyStrip_idem]

/-- Loop-body form of `cleanStock_pyStrip`. -/
lemma cleanFilterItem_strip (t : String) :
    cleanFilterItem (.str (pyStrip t)) = cleanFilterItem (.str t) := by
  simp only [cleanFilterItem, cleanStock_pyStrip]

/-- The cleaning loop is the map of `cleanStock` followed by the keep filter. -/
lemma filterMap_clean_eq (xs : List String) :
    (xs.filterMap fun s => cleanFilterItem (.str s)) =
      (xs.map cleanStock).filter fun c => c != "" && decide (c.length ≤ 20) := by
  induction xs with
  | nil => rfl
  | cons x xs ih =>
    simp only [List.filterMap_cons, List.map_cons, List.filter_cons]
    by_cases h1 : cleanStock x = ""
    · rw [show cleanFilterItem (.str x) = none from by simp [cleanFilterItem, h1]]
      rw [show (cleanStock x != "" && decide ((cleanStock x).length ≤ 20)) = false from by
        simp [h1]]
      simp [ih]
    · by_cases h2 : (cleanStock x).length ≤ 20
      · rw [show cleanFilterItem (.str x) = some (cleanStock x) from by
          simp [cleanFilterItem, h1, h2]]
        rw [show (cleanStock x != "" && decide ((cleanStock x).length ≤ 20)) = true from by
          simp [h1, h2]]
        simp [ih]
      · rw [show cleanFilterItem (.str x) = none from by simp [cleanFilterItem, h1, h2]]
        rw [show (cleanStock x != "" && decide ((cleanStock x).length ≤ 20)) = false from by
          simp [h1, h2]]
        simp [ih]

/-- Splitting a separator-free list yields just that list. -/
lemma splitOnChar_not_mem {sep : Char} :
    ∀ {cs : List Char}, sep ∉ cs → splitOnChar sep cs = [cs] := by
  intro cs
  induction cs with
  | nil => intro _; rfl
  | cons c cs ih =>
    intro h
    have hc : ¬ c = sep := fun he => h (he ▸ List.mem_cons_self c cs)
    have ht : sep ∉ cs := fun hm => h (List.mem_cons_of_mem _ hm)
    simp only [splitOnChar, if_neg hc, ih ht]

/-- Splitting at the first separator after a separator-free block. -/
lemma splitOnChar_append {sep : Char} :
    ∀ {xs ys : List Char}, sep ∉ xs →
      splitOnChar sep (xs ++ sep :: ys) = xs :: splitOnChar sep ys := by
  intro xs
  induction xs with
  | nil => intro ys _; simp [splitOnChar]
  | cons x xs ih =>
    intro ys h
    have hx : ¬ x = sep := fun he => h (he ▸ List.mem_cons_self x xs)
    have ht : sep ∉ xs := fun hm => h (List.mem_cons_of_mem _ hm)
    show splitOnChar sep (x :: (xs ++ sep :: ys)) = (x :: xs) :: splitOnChar sep ys
    simp only [splitOnChar, if_neg hx, List.append_eq]
    rw [ih ht]

/-- Splitting is a left inverse of joining for nonempty separator-free parts. -/
lemma splitOnChar_joinSep {sep : Char} :
    ∀ {parts : List (List Char)}, parts ≠ [] → (∀ p ∈ parts, sep ∉ p) →
      splitOnChar sep (joinSep sep parts) = parts := by
  intro parts
  induction parts with
  | nil => intro h _; exact absurd rfl h
  | cons p rest ih =>
    intro _ hall
    cases rest with
    | nil =>
      show splitOnChar sep (joinSep sep [p]) = [p]
      exact splitOnChar_not_mem (hall p (List.mem_cons_self _ _))
    | cons q rs =>
      show splitOnChar sep (p ++ sep :: joinSep sep (q :: rs)) = p :: q :: rs
      rw [splitOnChar_append (hall p (List.mem_cons_self _ _))]
      rw [ih (by simp) fun x hx => hall x (List.mem_cons_of_mem _ hx)]

/-- Unfolding of the normalizer when the `stocks` key is absent. -/
lemma extract_lookup_none {alert : Payload}
    (h : pyLookup alert "stocks" = none) :
    extract_stocks_from_alert alert = [] := by
  unfold extract_stocks_from_alert
  rw [h]

/-- Unfolding of the normalizer when the `stocks` value is not iterable. -/
lemma extract_lookup_noniter {alert : Payload} {v : PyValue}
    (h1 : pyLookup alert "stocks" = some v) (h2 : iterMembers v = none) :
    extract_stocks_from_alert alert = [] := by
  unfold extract_stocks_from_alert
  rw [h1]
  cases v with
  | str s => simp [iterMembers] at h2
  | list xs => simp [iterMembers] at h2
  | dict es => simp [iterMembers] at h2
  | int n => rfl
  | float d => rfl
  | bool b => rfl
  | null => rfl

/-- Unfolding of the normalizer when the `stocks` value is a dict. -/
lemma extract_lookup_dict {alert : Payload} {es : List (String × PyValue)}
    (h : pyLookup alert "stocks" = some (.dict es)) :
    extract_stocks_from_alert alert =
      (es.map fun e => PyValue.str e.1).filterMap cleanFilterItem := by
  unfold extract_stocks_from_alert
  rw [h]
  rfl

/-- An alert with no extractable symbols yields the handled error result. -/
lemma process_no_stocks {alert : Payload}
    (h : extract_stocks_from_alert alert = []) :
    ∀ (env : Env) (drive : DriveEnv) (st : WState),
      process_chartink_alert env drive st alert =
        (st, .error "No stocks found in alert") := by
  intro env drive st
  simp [process_chartink_alert, h]

end Chartink

namespace Chartink

/-- C2: the normalizer cleans each string entry with `cleanStock` (strip,
upper-case, remove "NSE:" and ".NS"), excludes entries that are empty or
longer than 20 characters after cleaning, preserves the input order and
keeps duplicates — both for a list-shaped and for a comma-separated string
`stocks` field; the concrete instance shows order and duplicates preserved. -/
theorem c2_symbol_cleaning :
    (∀ xs : List String,
      extract_stocks_from_alert [("stocks", PyValue.list (xs.map PyValue.str))] =
        (xs.map cleanStock).filter fun c => c != "" && decide (c.length ≤ 20))
    ∧ (∀ s : String,
      extract_stocks_from_alert [("stocks", PyValue.str s)] =
        ((pySplit ',' s).map cleanStock).filter fun c => c != "" && decide (c.length ≤ 20))
    ∧ extract_stocks_from_alert
        [("stocks", PyValue.list [.str " nse:tcs ", .str "tcs", .str "TCS",
                                  .str "ABCDEFGHIJKLMNOPQRSTU", .str "  "])] =
        ["TCS", "TCS", "TCS"] := by
  refine ⟨?_, ?_, by decide⟩
  · intro xs
    show (xs.map PyValue.str).filterMap cleanFilterItem = _
    rw [List.filterMap_map]
    exact filterMap_clean_eq xs
  · intro s
    show (((pySplit ',' s).map pyStrip).filterMap fun t => cleanFilterItem (.str t)) = _
    rw [List.filterMap_map]
    have hpt : ((fun t => cleanFilterItem (.str t)) ∘ pyStrip) =
        fun t => cleanFilterItem (.str t) := by
      funext t
      exact cleanFilterItem_strip t
    rw [hpt]
    exact filterMap_clean_eq _

/-- C4 counterexample: a mapping-shaped `stocks` field does not yield an
empty symbol sequence — Python iterates the dict and cleans its keys. -/
theorem c4_counterexample :
    extract_stocks_from_alert [("stocks", PyValue.dict [("TCS", PyValue.int 1)])] = ["TCS"]
    ∧ ["TCS"] ≠ ([] : List String) := by
  exact ⟨by decide, by decide⟩

/-- C4 (amended): a payload lacking a `stocks` field, and a payload whose
`stocks` field is a non-iterable value (number, float, boolean or null —
the raised `TypeError` is caught), yield an empty symbol sequence and the
handled "No stocks found in alert" result rather than an exception; but a
mapping is iterated and yields its string keys, cleaned in order. -/
theorem c4_amended_nonstocks :
    (∀ alert : Payload, pyLookup alert "stocks" = none →
      extract_stocks_from_alert alert = []
      ∧ ∀ (env : Env) (drive : DriveEnv) (st : WState),
          process_chartink_alert env drive st alert =
            (st, .error "No stocks found in alert"))
    ∧ (∀ (alert : Payload) (v : PyValue), pyLookup alert "stocks" = some v →
        iterMembers v = none →
        extract_stocks_from_alert alert = []
        ∧ ∀ (env : Env) (drive : DriveEnv) (st : WState),
            process_chartink_alert env drive st alert =
              (st, .error "No stocks found in alert"))
    ∧ (∀ (alert : Payload) (es : List (String × PyValue)),
        pyLookup alert "stocks" = some (.dict es) →
        extract_stocks_from_alert alert =
          ((es.map Prod.fst).map cleanStock).filter fun c =>
            c != "" && decide (c.length ≤ 20)) := by
  refine ⟨?_, ?_, ?_⟩
  · intro alert h
    have he := extract_lookup_none h
    exact ⟨he, process_no_stocks he⟩
  · intro alert v h1 h2
    have he := extract_lookup_noniter h1 h2
    exact ⟨he, process_no_stocks he⟩
  · intro alert es h
    rw [extract_lookup_dict h, show (es.map fun e => PyValue.str e.1) =
      ((es.map Prod.fst).map PyValue.str) from by rw [List.map_map]; rfl]
    rw [List.filterMap_map]
    exact filterMap_clean_eq _

/-- C4 witness: concrete instances of all three clauses. -/
theorem c4_amended_nonstocks_witness :
    extract_stocks_from_alert [("scan_name", PyValue.str "x")] = []
    ∧ process_chartink_alert envW driveOk ⟨.missing, 1⟩ [("scan_name", PyValue.str "x")] =
        (⟨.missing, 1⟩, .error "No stocks found in alert")
    ∧ extract_stocks_from_alert [("stocks", PyValue.int 7)] = []
    ∧ extract_stocks_from_alert [("stocks", PyValue.dict [("NSE:WIPRO", PyValue.int 1)])] =
        ["WIPRO"] := by
  refine ⟨(c4_amended_nonstocks.1 [("scan_name", PyValue.str "x")] (by rfl)).1,
          (c4_amended_nonstocks.1 [("scan_name", PyValue.str "x")] (by rfl)).2
            envW driveOk ⟨.missing, 1⟩,
          (c4_amended_nonstocks.2.1 [("stocks", PyValue.int 7)] (PyValue.int 7)
            (by rfl) (by rfl)).1, ?_⟩
  rw [c4_amended_nonstocks.2.2 [("stocks", PyValue.dict [("NSE:WIPRO", PyValue.int 1)])]
    [("NSE:WIPRO", PyValue.int 1)] (by rfl)]
  decide

/-- C5 counterexample: for the one-symbol sequence ["A,B"] (a symbol
containing a comma), submitting the comma-separated string and submitting
the list produce different cleaned sequences. -/
theorem c5_counterexample :
    commaJoin ["A,B"] = "A,B"
    ∧ extract_stocks_from_alert [("stocks", PyValue.str (commaJoin ["A,B"]))] = ["A", "B"]
    ∧ extract_stocks_from_alert [("stocks", PyValue.list (["A,B"].map PyValue.str))] = ["A,B"]
    ∧ (["A", "B"] : List String) ≠ ["A,B"] := by
  exact ⟨by decide, by decide, by decide, by decide⟩

/-- C5 (amended): for every sequence of comma-free symbol strings,
submitting it as a single comma-separated `stocks` string and submitting it
as the equivalent list of strings produce identical cleaned symbol
sequences. -/
theorem c5_amended_string_list_equiv :
    ∀ l : List String, (∀ s ∈ l, ',' ∉ s.toList) →
      extract_stocks_from_alert [("stocks", PyValue.str (commaJoin l))] =
        extract_stocks_from_alert [("stocks", PyValue.list (l.map PyValue.str))] := by
  intro l h
  cases l with
  | nil => decide
  | cons a rest =>
    show (((pySplit ',' (commaJoin (a :: rest))).map pyStrip).filterMap fun t =>
        cleanFilterItem (.str t)) = ((a :: rest).map PyValue.str).filterMap cleanFilterItem
    have hsplit : pySplit ',' (commaJoin (a :: rest)) = a :: rest := by
      unfold pySplit commaJoin
      rw [show (String.mk (joinSep ',' ((a :: rest).map String.toList))).toList =
            joinSep ',' ((a :: rest).map String.toList) from rfl]
      rw [splitOnChar_joinSep (by simp) ?hm]
      case hm =>
        intro p hp
        obtain ⟨s, hs, hps⟩ := List.mem_map.mp hp
        rw [← hps]
        exact h s hs
      rw [List.map_map]
      have : (String.mk ∘ String.toList) = id := by
        funext s
        exact mk_toList s
      rw [this, List.map_id]
    rw [hsplit, List.filterMap_map, List.filterMap_map]
    have : ((fun t => cleanFilterItem (.str t)) ∘ pyStrip) =
        (cleanFilterItem ∘ PyValue.str) := by
      funext t
      exact cleanFilterItem_strip t
    rw [this]

/-- C5 witness: the amended equivalence at a concrete comma-free sequence. -/
theorem c5_amended_string_list_equiv_witness :
    extract_stocks_from_alert
        [("stocks", PyValue.str (commaJoin ["NSE:TCS", " infy.ns "]))] =
      extract_stocks_from_alert
        [("stocks", PyValue.list (["NSE:TCS", " infy.ns "].map PyValue.str))] :=
  c5_amended_string_list_equiv _ (by decide)

end Chartink

namespace Chartink

/-- Shape of a successful write: sheet replaced, counter bumped, success
result carrying the pre-increment iteration number. -/
lemma writeAndFinish_saveOk {env : Env} (drive : DriveEnv) (st : WState)
    (stocks : List String) (rows : List (List PyValue)) (wb : List Sheet)
    (h : env.saveOk = true) :
    writeAndFinish env drive st stocks rows wb =
      ({ file := .present ((wb.filter fun sh =>
            sh.name != "Iteration_" ++ toString st.currentIteration) ++
            [⟨"Iteration_" ++ toString st.currentIteration, dfColumns :: rows⟩]),
         currentIteration := st.currentIteration + 1 },
       .success ("Added " ++ toString stocks.length ++ " stocks to iteration " ++
                 toString st.currentIteration) stocks st.currentIteration) := by
  simp [writeAndFinish, h]

/-- A failed save leaves the state untouched and reports an error. -/
lemma writeAndFinish_saveFail {env : Env} (drive : DriveEnv) (st : WState)
    (stocks : List String) (rows : List (List PyValue)) (wb : List Sheet)
    (h : env.saveOk = false) :
    writeAndFinish env drive st stocks rows wb =
      (st, .error "failed to save workbook") := by
  simp [writeAndFinish, h]

/-- Unfolding of `add_stocks_to_excel` on an existing readable workbook with a
successful save. -/
lemma add_stocks_present {env : Env} (drive : DriveEnv) (st : WState)
    (stocks : List String) (alert : Payload) (wb : List Sheet)
    (hs : env.saveOk = true) (hf : st.file = .present wb) :
    add_stocks_to_excel env drive st stocks alert =
      ({ file := .present ((wb.filter fun sh =>
            sh.name != "Iteration_" ++ toString st.currentIteration) ++
            [⟨"Iteration_" ++ toString st.currentIteration,
              dfColumns :: buildRows env alert st.currentIteration stocks⟩]),
         currentIteration := st.currentIteration + 1 },
       .success ("Added " ++ toString stocks.length ++ " stocks to iteration " ++
                 toString st.currentIteration) stocks st.currentIteration) := by
  unfold add_stocks_to_excel
  rw [hf]
  exact writeAndFinish_saveOk drive st stocks _ wb hs

/-- Unfolding of `add_stocks_to_excel` on a missing workbook file with a successful
save: the baseline workbook is created first. -/
lemma add_stocks_missing {env : Env} (drive : DriveEnv) (st : WState)
    (stocks : List String) (alert : Payload)
    (hs : env.saveOk = true) (hf : st.file = .missing) :
    add_stocks_to_excel env drive st stocks alert =
      ({ file := .present ((baselineWorkbook.filter fun sh =>
            sh.name != "Iteration_" ++ toString st.currentIteration) ++
            [⟨"Iteration_" ++ toString st.currentIteration,
              dfColumns :: buildRows env alert st.currentIteration stocks⟩]),
         currentIteration := st.currentIteration + 1 },
       .success ("Added " ++ toString stocks.length ++ " stocks to iteration " ++
                 toString st.currentIteration) stocks st.currentIteration) := by
  simp only [add_stocks_to_excel, hf]
  rw [if_pos hs]
  exact writeAndFinish_saveOk drive st stocks _ baselineWorkbook hs

/-- Unfolding of `add_stocks_to_excel` on an unreadable workbook: error, state kept. -/
lemma add_stocks_corrupt {env : Env} (drive : DriveEnv) (st : WState)
    (stocks : List String) (alert : Payload) (hf : st.file = .corrupt) :
    add_stocks_to_excel env drive st stocks alert =
      (st, .error "failed to load workbook") := by
  unfold add_stocks_to_excel
  rw [hf]

/-- Unfolding of `add_stocks_to_excel` with a failing save: error, state kept. -/
lemma add_stocks_saveFail {env : Env} (drive : DriveEnv) (st : WState)
    (stocks : List String) (alert : Payload)
    (hs : env.saveOk = false) (hf : st.file ≠ .corrupt) :
    add_stocks_to_excel env drive st stocks alert =
      (st, .error "failed to save workbook") := by
  rcases st with ⟨file, it⟩
  cases file with
  | corrupt => exact absurd rfl hf
  | missing =>
    simp only [add_stocks_to_excel]
    rw [if_neg (by simp [hs])]
  | present wb =>
    simp only [add_stocks_to_excel]
    exact writeAndFinish_saveFail drive _ stocks _ wb hs

/-- A nonempty extraction with a readable workbook and successful save
produces the success result and bumps the counter by one. -/
lemma process_success_eq {env : Env} (drive : DriveEnv) (st : WState)
    (alert : Payload) (hne : extract_stocks_from_alert alert ≠ [])
    (hs : env.saveOk = true) (hnc : st.file ≠ .corrupt) :
    (process_chartink_alert env drive st alert).2 =
      .success ("Added " ++ toString (extract_stocks_from_alert alert).length ++
                " stocks to iteration " ++ toString st.currentIteration)
               (extract_stocks_from_alert alert) st.currentIteration
    ∧ (process_chartink_alert env drive st alert).1.currentIteration =
        st.currentIteration + 1 := by
  have hni : (extract_stocks_from_alert alert).isEmpty = false := by
    cases hx : extract_stocks_from_alert alert with
    | nil => exact absurd hx hne
    | cons a l => rfl
  simp only [process_chartink_alert, hni]
  rw [if_neg (by simp)]
  rcases hfile : st.file with _ | _ | wb
  · rw [add_stocks_missing drive st _ alert hs hfile]
    exact ⟨rfl, rfl⟩
  · exact absurd hfile hnc
  · rw [add_stocks_present drive st _ alert wb hs hfile]
    exact ⟨rfl, rfl⟩

end Chartink

namespace Chartink

/-- After replacement, exactly the fresh sheet carries the iteration name. -/
lemma filter_replace_self (wb : List Sheet) (n : String)
    (rows : List (List PyValue)) :
    ((wb.filter fun sh => sh.name != n) ++ [Sheet.mk n rows]).filter
        (fun sh => sh.name == n) = [Sheet.mk n rows] := by
  rw [List.filter_append]
  have h1 : (wb.filter fun sh => sh.name != n).filter (fun sh => sh.name == n) = [] := by
    rw [List.filter_filter]
    apply List.filter_eq_nil_iff.mpr
    intro sh _
    by_cases h : sh.name = n
    · simp [h]
    · simp [h]
  have h2 : ([⟨n, rows⟩] : List Sheet).filter (fun sh => sh.name == n) = [⟨n, rows⟩] := by
    simp
  rw [h1, h2, List.nil_append]

/-- Sheets with any other name are untouched by the replacement. -/
lemma filter_replace_other (wb : List Sheet) (n m : String)
    (rows : List (List PyValue)) (hm : m ≠ n) :
    ((wb.filter fun sh => sh.name != n) ++ [Sheet.mk n rows]).filter
        (fun sh => sh.name == m) = wb.filter (fun sh => sh.name == m) := by
  rw [List.filter_append]
  have h2 : ([⟨n, rows⟩] : List Sheet).filter (fun sh => sh.name == m) = [] := by
    simp [Ne.symm hm]
  have h1 : (wb.filter fun sh => sh.name != n).filter (fun sh => sh.name == m) =
      wb.filter (fun sh => sh.name == m) := by
    rw [List.filter_filter]
    apply List.filter_congr
    intro sh _
    by_cases h : sh.name = m
    · simp [h, hm]
    · simp [h]
  rw [h1, h2, List.append_nil]

/-- The replaced workbook holds exactly one sheet with the iteration name. -/
lemma countP_replace (wb : List Sheet) (n : String) (rows : List (List PyValue)) :
    ((wb.filter fun sh => sh.name != n) ++ [Sheet.mk n rows]).countP
        (fun sh => sh.name == n) = 1 := by
  rw [List.countP_eq_length_filter, filter_replace_self]
  rfl

/-- C6: writing an alert at iteration N removes any pre-existing sheet named
Iteration_N and creates exactly one fresh Iteration_N sheet (header row plus
the data rows), and every sheet with any other name — Master_List,
TradingView_Export, every other Iteration_M — is preserved unchanged. -/
theorem c6_sheet_replacement_frame :
    ∀ (env : Env) (drive : DriveEnv) (st : WState) (stocks : List String)
      (alert : Payload) (wb : List Sheet),
      env.saveOk = true → st.file = .present wb →
      ∃ wb2 : List Sheet,
        (add_stocks_to_excel env drive st stocks alert).1.file = .present wb2
        ∧ wb2.filter (fun sh => sh.name == "Iteration_" ++ toString st.currentIteration) =
            [⟨"Iteration_" ++ toString st.currentIteration,
              dfColumns :: buildRows env alert st.currentIteration stocks⟩]
        ∧ wb2.countP (fun sh => sh.name == "Iteration_" ++ toString st.currentIteration) = 1
        ∧ ∀ m : String, m ≠ "Iteration_" ++ toString st.currentIteration →
            wb2.filter (fun sh => sh.name == m) = wb.filter (fun sh => sh.name == m) := by
  intro env drive st stocks alert wb hs hf
  refine ⟨(wb.filter fun sh =>
      sh.name != "Iteration_" ++ toString st.currentIteration) ++
      [⟨"Iteration_" ++ toString st.currentIteration,
        dfColumns :: buildRows env alert st.currentIteration stocks⟩], ?_, ?_, ?_, ?_⟩
  · rw [add_stocks_present drive st stocks alert wb hs hf]
  · exact filter_replace_self wb _ _
  · exact countP_replace wb _ _
  · intro m hm
    exact filter_replace_other wb _ m _ hm

/-- C6 witness: replacing the existing Iteration_1 sheet of a concrete
workbook. -/
theorem c6_sheet_replacement_frame_witness :
    ∃ wb2 : List Sheet,
      (add_stocks_to_excel envW driveOk ⟨.present wbW, 1⟩ ["TCS"] alertW).1.file =
          .present wb2
      ∧ wb2.filter (fun sh => sh.name == "Iteration_" ++ toString (1 : Int)) =
          [⟨"Iteration_" ++ toString (1 : Int), dfColumns :: buildRows envW alertW 1 ["TCS"]⟩]
      ∧ wb2.countP (fun sh => sh.name == "Iteration_" ++ toString (1 : Int)) = 1
      ∧ ∀ m : String, m ≠ "Iteration_" ++ toString (1 : Int) →
          wb2.filter (fun sh => sh.name == m) = wbW.filter (fun sh => sh.name == m) :=
  c6_sheet_replacement_frame envW driveOk ⟨.present wbW, 1⟩ ["TCS"] alertW wbW rfl rfl

end Chartink

namespace Chartink

/-- C3: the trigger price of the row at 0-based position i is the i-th entry
of the parsed trigger-price list when it exists and the integer 0 otherwise,
with no validation that the two lists have equal length; concretely, the
spec example payload cleans to ["TCS", "INFY"] with trigger prices
[3500.0, 1500.0], and a short price list pads with 0. -/
theorem c3_positional_trigger_price :
    (∀ (env : Env) (alert : Payload) (iter : Int) (stocks : List String) (i : Nat),
      i < stocks.length →
      ((buildRows env alert iter stocks)[i]?).bind (fun row => row[2]?) =
        some (match (parse_trigger_prices alert)[i]? with
              | some p => PyValue.float p
              | none => PyValue.int 0))
    ∧ extract_stocks_from_alert alertW = ["TCS", "INFY"]
    ∧ parse_trigger_prices alertW = [⟨3500, 0⟩, ⟨1500, 0⟩]
    ∧ (parse_trigger_prices alertW).map Dec.toRat = [(3500 : ℚ), (1500 : ℚ)]
    ∧ (buildRows envW alertW 1 ["TCS", "INFY"]).map (fun row => row[2]?) =
        [some (PyValue.float ⟨3500, 0⟩), some (PyValue.float ⟨1500, 0⟩)]
    ∧ (buildRows envW alertShort 1 ["TCS", "INFY"]).map (fun row => row[2]?) =
        [some (PyValue.float ⟨3500, 0⟩), some (PyValue.int 0)] := by
  refine ⟨?_, by decide, by decide, ?_, by rfl, by rfl⟩
  · intro env alert iter stocks i hlt
    have h1 : stocks[i]? = some stocks[i] := List.getElem?_eq_getElem hlt
    simp only [buildRows, List.getElem?_map, List.getElem?_enum, h1, Option.map_some']
    rfl
  · rw [show parse_trigger_prices alertW = [⟨3500, 0⟩, ⟨1500, 0⟩] from by decide]
    simp [Dec.toRat]

/-- C3 witness: the general positional clause at position 1 of the spec
example. -/
theorem c3_positional_trigger_price_witness :
    ((buildRows envW alertW 1 ["TCS", "INFY"])[1]?).bind (fun row => row[2]?) =
      some (PyValue.float ⟨1500, 0⟩) := by
  have h := c3_positional_trigger_price.1 envW alertW 1 ["TCS", "INFY"] 1 (by decide)
  rw [h]
  rfl

/-- C7: the in-memory iteration counter is incremented by exactly one per
successful alert, and only after the workbook write succeeds: an empty
extraction, an unreadable workbook, or a failed save leaves the state (and
hence the counter) unchanged and returns an error result, so the next
success reuses the same iteration number; a success returns the
pre-increment iteration number. -/
theorem c7_iteration_counter :
    ∀ (env : Env) (drive : DriveEnv) (st : WState) (alert : Payload),
      (extract_stocks_from_alert alert = [] →
        process_chartink_alert env drive st alert =
          (st, .error "No stocks found in alert"))
      ∧ (st.file = .corrupt → extract_stocks_from_alert alert ≠ [] →
          process_chartink_alert env drive st alert =
            (st, .error "failed to load workbook"))
      ∧ (env.saveOk = false →
          (process_chartink_alert env drive st alert).1 = st
          ∧ ∃ msg, (process_chartink_alert env drive st alert).2 = .error msg)
      ∧ (extract_stocks_from_alert alert ≠ [] → env.saveOk = true →
          st.file ≠ .corrupt →
          (process_chartink_alert env drive st alert).1.currentIteration =
            st.currentIteration + 1
          ∧ (process_chartink_alert env drive st alert).2 =
              .success ("Added " ++ toString (extract_stocks_from_alert alert).length ++
                        " stocks to iteration " ++ toString st.currentIteration)
                       (extract_stocks_from_alert alert) st.currentIteration) := by
  intro env drive st alert
  refine ⟨fun h => process_no_stocks h env drive st, ?_, ?_, ?_⟩
  · intro hc hne
    have hni : (extract_stocks_from_alert alert).isEmpty = false := by
      cases hx : extract_stocks_from_alert alert with
      | nil => exact absurd hx hne
      | cons a l => rfl
    simp only [process_chartink_alert, hni]
    rw [if_neg (by simp)]
    exact add_stocks_corrupt drive st _ alert hc
  · intro hsf
    by_cases hemp : extract_stocks_from_alert alert = []
    · rw [process_no_stocks hemp env drive st]
      exact ⟨rfl, "No stocks found in alert", rfl⟩
    · have hni : (extract_stocks_from_alert alert).isEmpty = false := by
        cases hx : extract_stocks_from_alert alert with
        | nil => exact absurd hx hemp
        | cons a l => rfl
      simp only [process_chartink_alert, hni]
      rw [if_neg (by simp)]
      by_cases hc : st.file = .corrupt
      · rw [add_stocks_corrupt drive st _ alert hc]
        exact ⟨rfl, "failed to load workbook", rfl⟩
      · rw [add_stocks_saveFail drive st _ alert hsf hc]
        exact ⟨rfl, "failed to save workbook", rfl⟩
  · intro hne hs hnc
    have h := process_success_eq drive st alert hne hs hnc
    exact ⟨h.2, h.1⟩

/-- C7 witness: empty extraction keeps the state; a failed save keeps the
state; a success bumps the counter from 5 to 6 and reports iteration 5. -/
theorem c7_iteration_counter_witness :
    process_chartink_alert envW driveOk ⟨.present wbW, 1⟩ [("stocks", PyValue.str "")] =
      (⟨.present wbW, 1⟩, .error "No stocks found in alert")
    ∧ (process_chartink_alert envBad driveOk ⟨.present wbW, 5⟩ alertW).1 =
        ⟨.present wbW, 5⟩
    ∧ (process_chartink_alert envW driveOk ⟨.present wbW, 5⟩ alertW).1.currentIteration = 6
    ∧ (process_chartink_alert envW driveOk ⟨.present wbW, 5⟩ alertW).2 =
        .success "Added 2 stocks to iteration 5" ["TCS", "INFY"] 5 := by
  refine ⟨(c7_iteration_counter envW driveOk ⟨.present wbW, 1⟩
            [("stocks", PyValue.str "")]).1 (by decide),
          ((c7_iteration_counter envBad driveOk ⟨.present wbW, 5⟩ alertW).2.2.1 rfl).1,
          ((c7_iteration_counter envW driveOk ⟨.present wbW, 5⟩ alertW).2.2.2 (by decide)
            rfl (fun h => FileState.noConfusion h)).1,
          ?_⟩
  have h := ((c7_iteration_counter envW driveOk ⟨.present wbW, 5⟩ alertW).2.2.2 (by decide)
    rfl (fun h => FileState.noConfusion h)).2
  rw [h]
  rfl

/-- C8: the result of processing an alert does not depend on the Drive
environment at all (service down, call raising, upload skipped — all
identical); `upload_file` swallows an unavailable service and a raised
call into `None`; and when the workbook write succeeds the webhook answers
HTTP 200 with the success body (accepted symbols and assigned iteration)
whatever the upload outcome was. -/
theorem c8_upload_isolation :
    ∀ (env : Env) (st : WState) (alert : Payload) (d d2 : DriveEnv),
      process_chartink_alert env d st alert = process_chartink_alert env d2 st alert
      ∧ (d.serviceUp = false → upload_file d = none)
      ∧ (∀ e : String, d.callResult = .error e → upload_file d = none)
      ∧ (extract_stocks_from_alert alert ≠ [] → env.saveOk = true →
          st.file ≠ .corrupt →
          (chartink_webhook env d st (some alert)).2.1 = 200
          ∧ (chartink_webhook env d st (some alert)).2.2 =
              [("status", PyValue.str "success"),
               ("message", PyValue.str ("Added " ++
                   toString (extract_stocks_from_alert alert).length ++
                   " stocks to iteration " ++ toString st.currentIteration)),
               ("stocks", PyValue.list ((extract_stocks_from_alert alert).map PyValue.str)),
               ("iteration", PyValue.int st.currentIteration)]) := by
  intro env st alert d d2
  refine ⟨?_, ?_, ?_, ?_⟩
  · rcases st with ⟨file, it⟩
    cases file <;>
      simp [process_chartink_alert, add_stocks_to_excel, writeAndFinish]
  · intro h
    simp [upload_file, h]
  · intro e he
    by_cases hsu : d.serviceUp = true
    · simp [upload_file, hsu, he]
    · simp [upload_file, hsu]
  · intro hne hs hnc
    have h := process_success_eq d st alert hne hs hnc
    constructor
    · show resultStatusCode (process_chartink_alert env d st alert).2 = 200
      rw [h.1]
      rfl
    · show resultJson (process_chartink_alert env d st alert).2 = _
      rw [h.1]
      rfl

/-- C8 witness: a raising upload call and a successful one give identical
results; `upload_file` yields `None` on an unavailable service and on a
raised call; the webhook still answers 200 with the success body when the
upload call raises. -/
theorem c8_upload_isolation_witness :
    process_chartink_alert envW driveOk ⟨.present wbW, 1⟩ alertW =
      process_chartink_alert envW driveErr ⟨.present wbW, 1⟩ alertW
    ∧ upload_file ⟨true, false, .ok "f"⟩ = none
    ∧ upload_file driveErr = none
    ∧ (chartink_webhook envW driveErr ⟨.present wbW, 1⟩ (some alertW)).2.1 = 200
    ∧ (chartink_webhook envW driveErr ⟨.present wbW, 1⟩ (some alertW)).2.2 =
        [("status", PyValue.str "success"),
         ("message", PyValue.str "Added 2 stocks to iteration 1"),
         ("stocks", PyValue.list [PyValue.str "TCS", PyValue.str "INFY"]),
         ("iteration", PyValue.int 1)] := by
  refine ⟨(c8_upload_isolation envW ⟨.present wbW, 1⟩ alertW driveOk driveErr).1,
          (c8_upload_isolation envW ⟨.present wbW, 1⟩ alertW ⟨true, false, .ok "f"⟩
            driveOk).2.1 rfl,
          (c8_upload_isolation envW ⟨.present wbW, 1⟩ alertW driveErr driveOk).2.2.1
            "HttpError 503" rfl,
          ((c8_upload_isolation envW ⟨.present wbW, 1⟩ alertW driveErr driveOk).2.2.2
            (by decide) rfl (fun h => FileState.noConfusion h)).1,
          ?_⟩
  have h := ((c8_upload_isolation envW ⟨.present wbW, 1⟩ alertW driveErr driveOk).2.2.2
    (by decide) rfl (fun h => FileState.noConfusion h)).2
  rw [h]
  rfl

end Chartink
